import Mathlib

/-!
# JOB_MONITOR — shallow embedding and verification

This file embeds the ingestion-and-indexing core of the JOB_MONITOR
repository (src/collector/db.py, src/collector/rss_client.py,
src/analysis/vector_store.py, src/analysis/llm_client.py,
src/ui/backend_api.py) as executable Lean definitions, and proves or
refutes the stated testable properties.

Conventions:
* Python machine-free integers are `Int`/`Nat`; 32-bit arithmetic inside
  MD5 is `Nat` reduced with `% 2^32`.
* A Python function that may raise is modelled with `Option`/`Except`,
  or with an explicit outcome type for calls into external services.
* External collaborators (HTTP, the LLM service, the embedding model)
  are oracle parameters: plain functions supplied to the definitions,
  universally quantified in the theorems.
* The persisted SQL table is modelled as a `List JobEntry` in insertion
  order; `query(...).first()` is `List.find?`.
-/

namespace JobMonitor

/-! ## Python string primitives -/

/-- Python slicing `s[:n]`: the first `n` characters. -/
def pyTake (s : String) (n : Nat) : String := ⟨s.data.take n⟩

/-- Python truthiness of an optional string (`None` and `""` are falsy). -/
def pyTruthy : Option String → Bool
  | none => false
  | some s => s ≠ ""

def isPySpace (c : Char) : Bool :=
  c = ' ' ∨ c = '\t' ∨ c = '\n' ∨ c = '\r' ∨ c = '\x0b' ∨ c = '\x0c'

/-- Python `str.strip()` (ASCII whitespace; the repository only feeds it
ASCII service replies). -/
def pyStrip (s : String) : String :=
  ⟨((s.data.dropWhile isPySpace).reverse.dropWhile isPySpace).reverse⟩

def isDigitChar (c : Char) : Bool := '0' ≤ c ∧ c ≤ '9'

def digitVal (c : Char) : Nat := c.toNat - '0'.toNat

/-- Digits of an integer literal body, allowing single underscores strictly
between digits (Python 3 `int()` syntax). Returns the digit list. -/
def pyDigitBody : List Char → Option (List Nat)
  | [] => none
  | [c] => if isDigitChar c then some [digitVal c] else none
  | c :: '_' :: rest =>
      if isDigitChar c then
        match rest with
        | [] => none
        | r1 :: _ =>
            if isDigitChar r1 then
              (pyDigitBody rest).map fun ds => digitVal c :: ds
            else none
      else none
  | c :: c2 :: rest =>
      if isDigitChar c then
        (pyDigitBody (c2 :: rest)).map fun ds => digitVal c :: ds
      else none

/-- Python `int(s)` on an already-stripped string: optional sign, then a
nonempty digit body. Returns `none` where Python raises `ValueError`. -/
def pyIntOfString (s : String) : Option Int :=
  match s.data with
  | '+' :: rest => (pyDigitBody rest).map fun ds =>
      Int.ofNat (ds.foldl (fun a d => a * 10 + d) 0)
  | '-' :: rest => (pyDigitBody rest).map fun ds =>
      -Int.ofNat (ds.foldl (fun a d => a * 10 + d) 0)
  | _ => (pyDigitBody s.data).map fun ds =>
      Int.ofNat (ds.foldl (fun a d => a * 10 + d) 0)

/-! ## UTF-8 encoding (`str.encode('utf-8')`) -/

def utf8Char (c : Char) : List Nat :=
  let n := c.toNat
  if n < 0x80 then [n]
  else if n < 0x800 then [0xC0 + n / 0x40, 0x80 + n % 0x40]
  else if n < 0x10000 then
    [0xE0 + n / 0x1000, 0x80 + n / 0x40 % 0x40, 0x80 + n % 0x40]
  else
    [0xF0 + n / 0x40000, 0x80 + n / 0x1000 % 0x40,
     0x80 + n / 0x40 % 0x40, 0x80 + n % 0x40]

def utf8Encode (s : String) : List Nat := (s.data.map utf8Char).flatten

/-! ## MD5 (`hashlib.md5(...).hexdigest()`)

Faithful RFC 1321 implementation on byte lists, with 32-bit words as
`Nat` values reduced modulo `2^32`. -/

def w32 (n : Nat) : Nat := n % 4294967296

def not32 (x : Nat) : Nat := Nat.xor x 4294967295

def rotl32 (x s : Nat) : Nat :=
  w32 (Nat.lor (Nat.shiftLeft (w32 x) s) (Nat.shiftRight (w32 x) (32 - s)))

def md5K : List Nat :=
  [0xd76aa478, 0xe8c7b756, 0x242070db, 0xc1bdceee,
   0xf57c0faf, 0x4787c62a, 0xa8304613, 0xfd469501,
   0x698098d8, 0x8b44f7af, 0xffff5bb1, 0x895cd7be,
   0x6b901122, 0xfd987193, 0xa679438e, 0x49b40821,
   0xf61e2562, 0xc040b340, 0x265e5a51, 0xe9b6c7aa,
   0xd62f105d, 0x02441453, 0xd8a1e681, 0xe7d3fbc8,
   0x21e1cde6, 0xc33707d6, 0xf4d50d87, 0x455a14ed,
   0xa9e3e905, 0xfcefa3f8, 0x676f02d9, 0x8d2a4c8a,
   0xfffa3942, 0x8771f681, 0x6d9d6122, 0xfde5380c,
   0xa4beea44, 0x4bdecfa9, 0xf6bb4b60, 0xbebfbc70,
   0x289b7ec6, 0xeaa127fa, 0xd4ef3085, 0x04881d05,
   0xd9d4d039, 0xe6db99e5, 0x1fa27cf8, 0xc4ac5665,
   0xf4292244, 0x432aff97, 0xab9423a7, 0xfc93a039,
   0x655b59c3, 0x8f0ccc92, 0xffeff47d, 0x85845dd1,
   0x6fa87e4f, 0xfe2ce6e0, 0xa3014314, 0x4e0811a1,
   0xf7537e82, 0xbd3af235, 0x2ad7d2bb, 0xeb86d391]

def md5S : List Nat :=
  [7, 12, 17, 22, 7, 12, 17, 22, 7, 12, 17, 22, 7, 12, 17, 22,
   5, 9, 14, 20, 5, 9, 14, 20, 5, 9, 14, 20, 5, 9, 14, 20,
   4, 11, 16, 23, 4, 11, 16, 23, 4, 11, 16, 23, 4, 11, 16, 23,
   6, 10, 15, 21, 6, 10, 15, 21, 6, 10, 15, 21, 6, 10, 15, 21]

def md5F (b c d : Nat) : Nat := Nat.lor (Nat.land b c) (Nat.land (not32 b) d)
def md5G (b c d : Nat) : Nat := Nat.lor (Nat.land d b) (Nat.land (not32 d) c)
def md5H (b c d : Nat) : Nat := Nat.xor b (Nat.xor c d)
def md5I (b c d : Nat) : Nat := Nat.xor c (Nat.lor b (not32 d))

structure MD5State where
  a : Nat
  b : Nat
  c : Nat
  d : Nat
  deriving Repr, DecidableEq

def md5Init : MD5State := ⟨0x67452301, 0xefcdab89, 0x98badcfe, 0x10325476⟩

/-- Little-endian 32-bit word from 4 bytes of the chunk at word index `i`. -/
def leWord (chunk : List Nat) (i : Nat) : Nat :=
  chunk.getD (4 * i) 0 + 256 * chunk.getD (4 * i + 1) 0 +
  65536 * chunk.getD (4 * i + 2) 0 + 16777216 * chunk.getD (4 * i + 3) 0

def md5Op (chunk : List Nat) (st : MD5State) (i : Nat) : MD5State :=
  let fg : Nat × Nat :=
    if i < 16 then (md5F st.b st.c st.d, i)
    else if i < 32 then (md5G st.b st.c st.d, (5 * i + 1) % 16)
    else if i < 48 then (md5H st.b st.c st.d, (3 * i + 5) % 16)
    else (md5I st.b st.c st.d, 7 * i % 16)
  let tmp := w32 (fg.1 + st.a + md5K.getD i 0 + leWord chunk fg.2)
  ⟨st.d, w32 (st.b + rotl32 tmp (md5S.getD i 0)), st.b, st.c⟩

def md5Chunk (chunk : List Nat) (st : MD5State) : MD5State :=
  let r := (List.range 64).foldl (md5Op chunk) st
  ⟨w32 (st.a + r.a), w32 (st.b + r.b), w32 (st.c + r.c), w32 (st.d + r.d)⟩

/-- Process `k` 64-byte chunks. -/
def md5Loop : Nat → List Nat → MD5State → MD5State
  | 0, _, st => st
  | k + 1, bytes, st => md5Loop k (bytes.drop 64) (md5Chunk (bytes.take 64) st)

/-- MD5 padding: 0x80, zeros to 56 mod 64, then the bit length as a
little-endian 64-bit value. -/
def md5Pad (msg : List Nat) : List Nat :=
  let len := msg.length
  let zeros := (120 - (len + 1) % 64) % 64
  msg ++ [0x80] ++ List.replicate zeros 0 ++
    (List.range 8).map (fun i => 8 * len / 2 ^ (8 * i) % 256)

def hexDigitChar (n : Nat) : Char :=
  if n < 10 then Char.ofNat (48 + n) else Char.ofNat (87 + n)

def byteHex (b : Nat) : List Char := [hexDigitChar (b / 16), hexDigitChar (b % 16)]

def wordHexLE (x : Nat) : List Char :=
  byteHex (x % 256) ++ byteHex (x / 256 % 256) ++
  byteHex (x / 65536 % 256) ++ byteHex (x / 16777216 % 256)

def md5Bytes (msg : List Nat) : MD5State :=
  let padded := md5Pad msg
  md5Loop (padded.length / 64) padded md5Init

def md5Hexdigest (msg : List Nat) : String :=
  let st := md5Bytes msg
  ⟨wordHexLE st.a ++ wordHexLE st.b ++ wordHexLE st.c ++ wordHexLE st.d⟩

/-! ## Record store (src/collector/db.py)

`JobEntry` mirrors the SQL table columns.  The `created_at` column is a
server-side wall-clock default touched by no claim and is omitted.  The
table is modelled as a `List JobEntry` in insertion order; the `id`
primary key makes duplicate ids unrepresentable in a real store state,
which theorems take as an explicit hypothesis where they need it. -/

structure JobEntry where
  id : String
  title : String
  link : String
  description : String
  content : String
  published : String
  source : String
  category : String
  analyzed : Bool
  analysis_result : Option String
  relevance_score : Int
  deriving Repr, DecidableEq

/-- The `entry_data` dict consumed by `add_job_entry`: the string keys are
always present in every caller; `relevance_score` is read with
`.get('relevance_score', 0)`, so its possible absence is an `Option`. -/
structure EntryData where
  title : String
  link : String
  description : String
  content : String
  published : String
  source : String
  category : String
  relevance_score : Option Int
  deriving Repr, DecidableEq

/-- `DatabaseManager.generate_job_id`: `hashlib.md5(f"{title}|{link}".encode('utf-8')).hexdigest()`. -/
def generate_job_id (title link : String) : String :=
  md5Hexdigest (utf8Encode (title ++ "|" ++ link))

/-- `session.query(JobEntry).filter_by(id=job_id).first()`. -/
def findById (db : List JobEntry) (jid : String) : Option JobEntry :=
  db.find? (fun r => r.id == jid)

/-- `DatabaseManager.add_job_entry`: check-then-insert on the generated id.
Returns (inserted?, new store state).  Column defaults: `analyzed=False`,
`analysis_result=None`. -/
def add_job_entry (db : List JobEntry) (e : EntryData) : Bool × List JobEntry :=
  let job_id := generate_job_id e.title e.link
  match findById db job_id with
  | some _ => (false, db)
  | none =>
      (true, db ++ [{ id := job_id, title := e.title, link := e.link,
                      description := e.description, content := e.content,
                      published := e.published, source := e.source,
                      category := e.category, analyzed := false,
                      analysis_result := none,
                      relevance_score := e.relevance_score.getD 0 }])

/-- `DatabaseManager.get_unanalyzed_entries`. -/
def get_unanalyzed_entries (db : List JobEntry) : List JobEntry :=
  db.filter (fun r => !r.analyzed)

/-- `DatabaseManager.get_all_entries(limit, offset)` (defaults 100, 0 at the
Python signature; callers pass them explicitly here). -/
def get_all_entries (db : List JobEntry) (limit offset : Nat) : List JobEntry :=
  (db.drop offset).take limit

/-! ## Stats endpoint (src/ui/backend_api.py, `get_stats`) -/

structure Stats where
  total_jobs : Int
  analyzed_jobs : Int
  pending_analysis : Int
  deriving Repr, DecidableEq

/-- `get_stats`: `total_jobs = len(get_all_entries(limit=10000))`,
`unanalyzed_jobs = len(get_unanalyzed_entries())`,
`analyzed_jobs = total_jobs - unanalyzed_jobs` (Python int subtraction). -/
def get_stats (db : List JobEntry) : Stats :=
  let total_jobs : Int := (get_all_entries db 10000 0).length
  let unanalyzed_jobs : Int := (get_unanalyzed_entries db).length
  { total_jobs := total_jobs,
    analyzed_jobs := total_jobs - unanalyzed_jobs,
    pending_analysis := unanalyzed_jobs }

/-- A concrete candidate posting used to instantiate store theorems. -/
def sampleEntry : EntryData :=
  { title := "Assistant Professor X", link := "https://example.com/1",
    description := "d", content := "c", published := "2024-01-01",
    source := "feed", category := "general", relevance_score := none }

/-- A concrete stored record used to instantiate store theorems. -/
def blankEntry : JobEntry :=
  { id := "x", title := "t", link := "l", description := "", content := "",
    published := "", source := "", category := "", analyzed := true,
    analysis_result := none, relevance_score := 0 }

theorem find?_append_none {α : Type} {p : α → Bool} {l₁ l₂ : List α}
    (h : l₁.find? p = none) : (l₁ ++ l₂).find? p = l₂.find? p := by
  rw [List.find?_append, h, Option.none_or]

/-- C1: ingestion is idempotent.  On any store state whose primary-key
invariant holds for the entry's identity, the first `add_job_entry` returns
`true` exactly when no record with that id exists, the second returns
`false` and leaves the store unchanged, and afterwards exactly one record
with that identity is stored. -/
theorem add_job_entry_idempotent (db : List JobEntry) (e : EntryData)
    (hkey : (db.filter (fun r => r.id == generate_job_id e.title e.link)).length ≤ 1) :
    ((add_job_entry db e).1 = true ↔
        findById db (generate_job_id e.title e.link) = none) ∧
    (add_job_entry (add_job_entry db e).2 e).1 = false ∧
    (add_job_entry (add_job_entry db e).2 e).2 = (add_job_entry db e).2 ∧
    (((add_job_entry (add_job_entry db e).2 e).2.filter
        (fun r => r.id == generate_job_id e.title e.link)).length = 1) := by
  cases h : findById db (generate_job_id e.title e.link) with
  | none =>
      have hfil : db.filter (fun r => r.id == generate_job_id e.title e.link) = [] := by
        rw [List.filter_eq_nil_iff]
        intro x hx
        exact List.find?_eq_none.mp h x hx
      have hsnd : findById
          (db ++ [{ id := generate_job_id e.title e.link, title := e.title,
                    link := e.link, description := e.description,
                    content := e.content, published := e.published,
                    source := e.source, category := e.category,
                    analyzed := false, analysis_result := none,
                    relevance_score := e.relevance_score.getD 0 }])
          (generate_job_id e.title e.link) = some
          { id := generate_job_id e.title e.link, title := e.title,
            link := e.link, description := e.description,
            content := e.content, published := e.published,
            source := e.source, category := e.category,
            analyzed := false, analysis_result := none,
            relevance_score := e.relevance_score.getD 0 } := by
        unfold findById
        rw [find?_append_none h]
        simp [List.find?]
      refine ⟨?_, ?_⟩
      · simp [add_job_entry, h]
      · simp only [add_job_entry, h]
        simp only [findById] at hsnd ⊢
        rw [hsnd]
        refine ⟨rfl, rfl, ?_⟩
        rw [List.filter_append, hfil]
        simp
  | some r =>
      have hne : findById db (generate_job_id e.title e.link) ≠ none := by
        rw [h]; exact fun hc => Option.noConfusion hc
      have h' : db.find? (fun x => x.id == generate_job_id e.title e.link) = some r := h
      have hmem : r ∈ db.filter (fun x => x.id == generate_job_id e.title e.link) :=
        List.mem_filter.mpr ⟨List.mem_of_find?_eq_some h',
          @List.find?_some _ (fun x => x.id == generate_job_id e.title e.link) r db h'⟩
      have hge : 1 ≤ (db.filter (fun x => x.id == generate_job_id e.title e.link)).length :=
        List.length_pos.mpr (List.ne_nil_of_mem hmem)
      refine ⟨?_, ?_⟩
      · simp [add_job_entry, h]
      · simp only [add_job_entry, h]
        exact ⟨trivial, trivial, Nat.le_antisymm hkey hge⟩

/-- C1 witness: inserting the sample entry twice into the empty store. -/
theorem add_job_entry_idempotent_witness :
    (add_job_entry (add_job_entry [] sampleEntry).2 sampleEntry).1 = false :=
  (add_job_entry_idempotent [] sampleEntry (by decide)).2.1

/-- C3 counterexample: two distinct (title, link) pairs that receive the
same id, because the id only depends on the string `title + "|" + link`:
`("a|b", "c")` and `("a", "b|c")` both hash `"a|b|c"`. -/
theorem generate_job_id_collision :
    (("a|b", "c") : String × String) ≠ ("a", "b|c") ∧
    generate_job_id "a|b" "c" = generate_job_id "a" "b|c" :=
  ⟨by decide, rfl⟩

/-- C3 amended: `generate_job_id` is a pure function — equal inputs give
equal ids — and more generally the id depends only on the concatenation
`title|link`, so two pairs with equal concatenations (e.g. when a title
contains `"|"`) receive the same id; distinct pairs are therefore not
guaranteed distinct ids. -/
theorem generate_job_id_deterministic_concat (t l t' l' : String)
    (h : t ++ "|" ++ l = t' ++ "|" ++ l') :
    generate_job_id t l = generate_job_id t l ∧
    generate_job_id t l = generate_job_id t' l' :=
  ⟨rfl, by unfold generate_job_id; rw [h]⟩

/-- C3 witness for the amended statement. -/
theorem generate_job_id_deterministic_concat_witness :
    generate_job_id "t" "u" = generate_job_id "t" "u" :=
  (generate_job_id_deterministic_concat "t" "u" "t" "u" rfl).1

/-- C10: the stats endpoint computes `pending_analysis` over the whole
store but `total_jobs` over at most the first 10000 records, and reports
`analyzed_jobs = total_jobs - pending_analysis`; hence `total_jobs` is
`min 10000 N`, it differs from the true count on stores with more than
10000 records, and analyzed + pending equals the true count iff the store
holds at most 10000 records. -/
theorem get_stats_cap (db : List JobEntry) :
    (get_stats db).total_jobs = ((min 10000 db.length : Nat) : Int) ∧
    (get_stats db).analyzed_jobs =
      (get_stats db).total_jobs - (get_stats db).pending_analysis ∧
    (get_stats db).pending_analysis =
      ((db.filter (fun r => !r.analyzed)).length : Int) ∧
    (10000 < db.length → (get_stats db).total_jobs ≠ (db.length : Int)) ∧
    ((get_stats db).analyzed_jobs + (get_stats db).pending_analysis =
        (db.length : Int) ↔ db.length ≤ 10000) := by
  have htot : (get_stats db).total_jobs = ((min 10000 db.length : Nat) : Int) := by
    simp [get_stats, get_all_entries, List.length_take]
  refine ⟨htot, by simp [get_stats], by simp [get_stats, get_unanalyzed_entries], ?_, ?_⟩
  · intro hgt
    rw [htot]
    intro hc
    have := Int.ofNat.inj hc
    omega
  · constructor
    · intro hsum
      have : (get_stats db).total_jobs = (db.length : Int) := by
        have : (get_stats db).analyzed_jobs + (get_stats db).pending_analysis =
            (get_stats db).total_jobs := by
          simp [get_stats]
        omega
      rw [htot] at this
      have := Int.ofNat.inj this
      omega
    · intro hle
      have hmin : min 10000 db.length = db.length := by omega
      have : (get_stats db).analyzed_jobs + (get_stats db).pending_analysis =
          (get_stats db).total_jobs := by
        simp [get_stats]
      rw [this, htot, hmin]

/-- C10 witness: on a store of 10001 records the reported total is not the
true record count. -/
theorem get_stats_cap_witness :
    (get_stats (List.replicate 10001 blankEntry)).total_jobs ≠
      ((List.replicate 10001 blankEntry).length : Int) :=
  (get_stats_cap (List.replicate 10001 blankEntry)).2.2.2.1
    (by rw [List.length_replicate]; omega)

/-! ## Relevance gate (src/collector/rss_client.py `_quick_relevance_check`,
src/analysis/llm_client.py `_call_llm`) -/

/-- Outcome of one `llm_client._call_llm(prompt)` call: the call either
raises (e.g. unsupported provider raises `ValueError`, or an import
fails) or returns response text (each provider branch catches its own
network errors and returns an error message *string*). -/
inductive LLMOutcome where
  | raises
  | returns (text : String)
  deriving Repr, DecidableEq

/-- The configuration values the gate reads: `config['keywords']` and
`config.get('recruitment_filters', {})` with its two `.get` defaults
(`'PhD'`, `'open to international students'`) already applied. -/
structure GateConfig where
  keywords : List String
  required_degree : String
  citizenship_requirement : String
  deriving Repr, DecidableEq

/-- The f-string prompt built by `_quick_relevance_check`. -/
def quickRelevancePrompt (cfg : GateConfig) (title description : String) : String :=
  "Rate this job for " ++ cfg.required_degree ++
  " international student (0-10):\n    Keywords: " ++
  String.intercalate ", " cfg.keywords ++
  "\n    Requirements: " ++ cfg.required_degree ++ " degree, " ++
  cfg.citizenship_requirement ++
  "\n\n    Title: " ++ title ++ "\n    Description: " ++ description ++
  "\n\n    Check for: " ++ cfg.required_degree ++
  " requirement, visa sponsorship, citizenship restrictions\n    Score only (0-10):"

/-- The cache block of `_quick_relevance_check`: under `if link:` (Python
truthiness), look the identity up and use the stored score when positive. -/
def cachedVerdict (db : List JobEntry) (title : String)
    (link : Option String) : Option (Bool × Int) :=
  match link with
  | some l =>
      if l ≠ "" then
        match findById db (generate_job_id title l) with
        | some cached =>
            if cached.relevance_score > 0 then
              some (decide (cached.relevance_score ≥ 6), cached.relevance_score)
            else none
        | none => none
      else none
  | none => none

/-- `RSSClient._quick_relevance_check(title, description, link=None)`: the
cache block, then one scoring call parsed with `int(score.strip())`; any
exception on that path yields the fail-open `(True, 6)`. -/
def quick_relevance_check (cfg : GateConfig) (db : List JobEntry)
    (llm : String → LLMOutcome) (title description : String)
    (link : Option String) : Bool × Int :=
  match cachedVerdict db title link with
  | some r => r
  | none =>
      match llm (quickRelevancePrompt cfg title description) with
      | .raises => (true, 6)
      | .returns text =>
          match pyIntOfString (pyStrip text) with
          | some n => (decide (n ≥ 6), n)
          | none => (true, 6)

/-- A concrete gate configuration for witnesses. -/
def cfg0 : GateConfig :=
  { keywords := ["professor", "assistant"], required_degree := "PhD",
    citizenship_requirement := "open to international students" }

/-- C4: fail-open scoring.  With no usable cached score for the identity,
if the scoring call raises or its reply does not parse as a Python int,
the gate returns `(true, 6)` instead of raising or dropping the posting. -/
theorem quick_relevance_check_fail_open (cfg : GateConfig) (db : List JobEntry)
    (llm : String → LLMOutcome) (title description : String) (link : Option String)
    (hnc : ∀ l, link = some l → l ≠ "" → ∀ cached,
        findById db (generate_job_id title l) = some cached →
        cached.relevance_score ≤ 0)
    (hllm : llm (quickRelevancePrompt cfg title description) = .raises ∨
        ∃ text, llm (quickRelevancePrompt cfg title description) = .returns text ∧
          pyIntOfString (pyStrip text) = none) :
    quick_relevance_check cfg db llm title description link = (true, 6) := by
  have hcache : cachedVerdict db title link = none := by
    unfold cachedVerdict
    revert hnc
    cases link with
    | none => intro _; rfl
    | some l =>
        intro hnc
        by_cases hl : l ≠ ""
        · simp only [if_pos hl]
          cases hf : findById db (generate_job_id title l) with
          | none => rfl
          | some cached =>
              have := hnc l rfl hl cached hf
              simp only [if_neg (by omega : ¬cached.relevance_score > 0)]
        · simp only [if_neg hl]
  unfold quick_relevance_check
  rw [hcache]
  rcases hllm with h | ⟨text, h, hp⟩
  · rw [h]
  · rw [h]
    simp only [hp]

/-- C4 witness: no cache (empty store, no link), service replies with the
Ollama error string, which does not parse as an int. -/
theorem quick_relevance_check_fail_open_witness :
    quick_relevance_check cfg0 []
      (fun _ => .returns "Error calling Ollama: connection refused")
      "Assistant Professor X" "desc" none = (true, 6) :=
  quick_relevance_check_fail_open cfg0 []
    (fun _ => .returns "Error calling Ollama: connection refused")
    "Assistant Professor X" "desc" none
    (fun _ h => nomatch h)
    (Or.inr ⟨"Error calling Ollama: connection refused", rfl, by decide⟩)

/-- A stored record with a positive cached score under an *empty* link. -/
def cachedRec3 : JobEntry :=
  { id := generate_job_id "T" "", title := "T", link := "", description := "",
    content := "", published := "", source := "", category := "",
    analyzed := false, analysis_result := none, relevance_score := 3 }

/-- A stored record with a positive cached score under link "x". -/
def cachedRec7 : JobEntry :=
  { id := generate_job_id "T" "x", title := "T", link := "x", description := "",
    content := "", published := "", source := "", category := "",
    analyzed := false, analysis_result := none, relevance_score := 7 }

/-- C5 counterexample: for the identity `("T", "")` a stored record with
cached score `3 > 0` exists, yet because `if link:` treats the empty link
as falsy the gate re-invokes the scoring service: its verdict follows the
service reply (`(true, 9)` vs `(false, 2)` for two service behaviors)
instead of the cached `(false, 3)`. -/
theorem quick_relevance_check_empty_link_cex :
    (findById [cachedRec3] (generate_job_id "T" "")).map
        (fun r => r.relevance_score) = some 3 ∧
    quick_relevance_check cfg0 [cachedRec3] (fun _ => .returns "9")
        "T" "d" (some "") = (true, 9) ∧
    quick_relevance_check cfg0 [cachedRec3] (fun _ => .returns "2")
        "T" "d" (some "") = (false, 2) ∧
    (((true, 9) : Bool × Int) ≠ (decide ((3 : Int) ≥ 6), (3 : Int))) := by
  refine ⟨?_, by decide, by decide, by decide⟩
  simp [findById, cachedRec3, List.find?]

/-- C5 amended: for every identity with a *non-empty* link whose stored
record has a cached `relevance_score > 0`, the gate returns the cached
verdict `(score ≥ 6, score)`, and its result is identical for any two
behaviors of the scoring service. -/
theorem quick_relevance_check_cache_hit (cfg : GateConfig) (db : List JobEntry)
    (llm llm' : String → LLMOutcome) (title description l : String)
    (cached : JobEntry) (hl : l ≠ "")
    (hfind : findById db (generate_job_id title l) = some cached)
    (hscore : cached.relevance_score > 0) :
    quick_relevance_check cfg db llm title description (some l) =
      (decide (cached.relevance_score ≥ 6), cached.relevance_score) ∧
    quick_relevance_check cfg db llm title description (some l) =
      quick_relevance_check cfg db llm' title description (some l) := by
  have h1 : ∀ f : String → LLMOutcome,
      quick_relevance_check cfg db f title description (some l) =
        (decide (cached.relevance_score ≥ 6), cached.relevance_score) := by
    intro f
    unfold quick_relevance_check cachedVerdict
    simp only [if_pos hl, hfind, if_pos hscore]
  exact ⟨h1 llm, (h1 llm).trans (h1 llm').symm⟩

/-- C5 witness for the amended statement: cached score 7 under link "x"
suppresses a raising service call. -/
theorem quick_relevance_check_cache_hit_witness :
    quick_relevance_check cfg0 [cachedRec7] (fun _ => .raises) "T" "d" (some "x") =
      (decide (cachedRec7.relevance_score ≥ 6), cachedRec7.relevance_score) :=
  (quick_relevance_check_cache_hit cfg0 [cachedRec7] (fun _ => .raises)
    (fun _ => .returns "0") "T" "d" "x" cachedRec7 (by decide)
    (by simp [findById, cachedRec7, List.find?]) (by decide)).1

/-! ## Vector index (src/analysis/vector_store.py)

The embedding model (`SentenceTransformer.encode`) and the float kernel
of `faiss.normalize_L2` are external numeric collaborators: they appear
as oracle parameters `embed : String → Vec` and `norm : Vec → Vec`.
`faiss.IndexFlatIP` stores appended vectors in insertion order; it is
modelled as the list of its vectors plus its fixed dimension.  The
on-disk `_save_index` write is I/O with no effect on the in-memory
state and is not modelled. -/

abbrev Vec := List Rat

/-- The metadata dict built per job in `add_job_entries`. -/
structure IndexedDocument where
  id : String
  title : String
  link : String
  source : String
  published : String
  text : String
  analysis : Option String
  deriving Repr, DecidableEq

/-- `analysis_text`: `""` unless `job.analysis_result` is truthy. -/
def analysisText (job : JobEntry) : String :=
  match job.analysis_result with
  | some a => if a = "" then "" else a
  | none => ""

/-- `searchable_text = f"{job.title} {job.description} {analysis_text}"`. -/
def searchableText (job : JobEntry) : String :=
  job.title ++ " " ++ job.description ++ " " ++ analysisText job

def mkIndexedDoc (job : JobEntry) : IndexedDocument :=
  { id := job.id, title := job.title, link := job.link, source := job.source,
    published := job.published, text := searchableText job,
    analysis := job.analysis_result }

structure VectorStore where
  dim : Nat
  index : List Vec
  documents : List IndexedDocument
  deriving Repr, DecidableEq

/-- `VectorStore._create_new_index`: probe the embedding model with
`"sample text"` for the dimension and start from an empty index and an
empty document list. -/
def create_new_index (embed : String → Vec) : VectorStore :=
  { dim := (embed "sample text").length, index := [], documents := [] }

/-- `VectorStore.add_job_entries`: build docs and searchable texts in job
order, embed all texts in one batch, L2-normalize, append embeddings to
the index and docs to the metadata list in the same order. -/
def add_job_entries (embed : String → Vec) (norm : Vec → Vec)
    (vs : VectorStore) (job_entries : List JobEntry) : VectorStore :=
  if job_entries.isEmpty then vs
  else
    let new_docs := job_entries.map mkIndexedDoc
    let texts_to_embed := job_entries.map searchableText
    let embeddings := texts_to_embed.map embed
    let normalized := embeddings.map norm
    { vs with index := vs.index ++ normalized,
              documents := vs.documents ++ new_docs }

/-- The alignment invariant of C2: one vector per document, and the
vector at position `i` is the (normalized) embedding of the text of the
document at position `i`. -/
def alignedInv (embed : String → Vec) (norm : Vec → Vec) (vs : VectorStore) : Prop :=
  vs.index.length = vs.documents.length ∧
  ∀ i : Nat, vs.index[i]? = (vs.documents[i]?).map (fun d => norm (embed d.text))

theorem add_job_entries_preserves_aligned (embed : String → Vec)
    (norm : Vec → Vec) (vs : VectorStore) (jobs : List JobEntry)
    (h : alignedInv embed norm vs) :
    alignedInv embed norm (add_job_entries embed norm vs jobs) := by
  obtain ⟨hlen, hpos⟩ := h
  unfold add_job_entries
  by_cases hj : jobs.isEmpty
  · simpa [hj] using ⟨hlen, hpos⟩
  · simp only [hj, Bool.false_eq_true, if_false]
    constructor
    · simp [hlen]
    · intro i
      rw [List.map_map, List.map_map]
      rw [List.getElem?_append, List.getElem?_append]
      rw [← hlen]
      by_cases hi : i < vs.index.length
      · simp only [if_pos hi]
        exact hpos i
      · simp only [if_neg hi]
        rw [List.getElem?_map, List.getElem?_map, Option.map_map]
        rfl

/-- C2: starting from the fresh index, after any sequence of
`add_job_entries` calls the index holds exactly one vector per stored
document, and the vector at every position `i` is the normalized
embedding of the text of the document at position `i` (strict append
order is preserved). -/
theorem vector_store_alignment (embed : String → Vec) (norm : Vec → Vec)
    (batches : List (List JobEntry)) :
    ((List.foldl (add_job_entries embed norm) (create_new_index embed)
        batches).index.length =
      (List.foldl (add_job_entries embed norm) (create_new_index embed)
        batches).documents.length) ∧
    ∀ i : Nat,
      (List.foldl (add_job_entries embed norm) (create_new_index embed)
          batches).index[i]? =
        ((List.foldl (add_job_entries embed norm) (create_new_index embed)
            batches).documents[i]?).map (fun d => norm (embed d.text)) := by
  have hbase : alignedInv embed norm (create_new_index embed) := by
    constructor
    · rfl
    · intro i
      simp [create_new_index]
  have hfold : ∀ (bs : List (List JobEntry)) (vs : VectorStore),
      alignedInv embed norm vs →
      alignedInv embed norm (List.foldl (add_job_entries embed norm) vs bs) := by
    intro bs
    induction bs with
    | nil => intro vs h; exact h
    | cons b rest ih =>
        intro vs h
        exact ih _ (add_job_entries_preserves_aligned embed norm vs b h)
  exact hfold batches _ hbase

/-! ### `rebuild_index` (C8)

`VectorStore.rebuild_index` clears the index via `_create_new_index` and
then evaluates `db_manager.session.query(db_manager.JobEntry)`.  The
`DatabaseManager` object has no attribute `JobEntry` (the module-level
class `JobEntry` is imported one line above but not used), so Python
raises `AttributeError` there, before any batch is processed; there is no
`try` in `rebuild_index`.  Attribute lookup is modelled by membership in
the explicit list of `DatabaseManager` instance attributes. -/

def databaseManagerAttrs : List String :=
  ["engine", "session", "generate_job_id", "add_job_entry",
   "get_unanalyzed_entries", "update_analysis_result", "get_all_entries",
   "search_entries"]

/-- Python slices `all_jobs[i:i+batch_size]` for `i in range(0, len, 100)`. -/
def chunksOf (n : Nat) (l : List JobEntry) : List (List JobEntry) :=
  (List.range ((l.length + n - 1) / n)).map (fun i => (l.drop (n * i)).take n)

/-- `VectorStore.rebuild_index`: clear, then query analyzed records and
re-add them in batches of 100.  The result pairs the in-memory store
state with the call outcome. -/
def rebuild_index (embed : String → Vec) (norm : Vec → Vec)
    (db : List JobEntry) (_vs : VectorStore) : VectorStore × Except String Unit :=
  let vs1 := create_new_index embed
  if "JobEntry" ∈ databaseManagerAttrs then
    let all_jobs := db.filter (fun r => r.analyzed)
    ((chunksOf 100 all_jobs).foldl (add_job_entries embed norm) vs1,
     Except.ok ())
  else
    (vs1, Except.error
      "AttributeError: 'DatabaseManager' object has no attribute 'JobEntry'")

/-- A store of analyzed records with distinct ids. -/
def analyzedRec (k : Nat) : JobEntry :=
  { id := toString k, title := "t", link := "l", description := "d",
    content := "c", published := "p", source := "s", category := "g",
    analyzed := true, analysis_result := some "a", relevance_score := 7 }

def db250 : List JobEntry := (List.range 250).map analyzedRec

/-- C8: on a store with 250 analyzed records, `rebuild_index` does not
complete with an index of 250 documents: it raises `AttributeError` right
after clearing the index (for every embedding/normalization behavior and
every prior index state), leaving 0 documents. -/
theorem rebuild_index_attribute_error :
    ∀ (embed : String → Vec) (norm : Vec → Vec) (vs : VectorStore),
    (db250.filter (fun r => r.analyzed)).length = 250 ∧
    (rebuild_index embed norm db250 vs).2 =
      Except.error
        "AttributeError: 'DatabaseManager' object has no attribute 'JobEntry'" ∧
    (rebuild_index embed norm db250 vs).1.documents.length = 0 := by
  intro embed norm vs
  have hmem : ("JobEntry" ∈ databaseManagerAttrs) = False := by
    simp [databaseManagerAttrs]
  refine ⟨?_, ?_, ?_⟩
  · have : db250.filter (fun r => r.analyzed) = db250 := by
      rw [List.filter_eq_self]
      intro a ha
      rw [db250] at ha
      obtain ⟨k, _, hk⟩ := List.mem_map.mp ha
      rw [← hk]
      rfl
    rw [this, db250, List.length_map, List.length_range]
  · unfold rebuild_index
    rw [if_neg (by rw [hmem]; exact id)]
  · unfold rebuild_index
    rw [if_neg (by rw [hmem]; exact id)]
    rfl

/-! ## Content fetcher (src/collector/rss_client.py, `_fetch_full_content`)

The HTTP fetch plus BeautifulSoup parse of a URL is an oracle
`fetchHtml : String → Option HtmlForest` (`none` models any raised
exception), and the Jina Reader call is an oracle returning an optional
(status code, response text) pair.  An HTML document is a forest of
element/text nodes — a mutual inductive pair so that all tree functions
are structural and kernel-reducible.  The randomized `time.sleep` delay
before the Jina call is timing behavior with no effect on the result. -/

mutual
inductive Html where
  | el (tag : String) (idAttr : Option String) (classes : List String)
       (attrs : List (String × String)) (children : HtmlForest)
  | txt (s : String)
inductive HtmlForest where
  | nil
  | cons (h : Html) (rest : HtmlForest)
end

def appendForest : HtmlForest → HtmlForest → HtmlForest
  | .nil, f => f
  | .cons h r, f => .cons h (appendForest r f)

mutual
/-- `element.decompose()` applied to every element whose tag is in `tags`
(as in `for element in soup([...]): element.decompose()`). -/
def removeTags (tags : List String) : Html → HtmlForest
  | .txt s => .cons (.txt s) .nil
  | .el t i c a ch =>
      if t ∈ tags then .nil
      else .cons (.el t i c a (removeTagsForest tags ch)) .nil
def removeTagsForest (tags : List String) : HtmlForest → HtmlForest
  | .nil => .nil
  | .cons h rest => appendForest (removeTags tags h) (removeTagsForest tags rest)
end

mutual
/-- The text-node strings of a node in document order. -/
def textStrings : Html → List String
  | .txt s => [s]
  | .el _ _ _ _ ch => textStringsForest ch
def textStringsForest : HtmlForest → List String
  | .nil => []
  | .cons h rest => textStrings h ++ textStringsForest rest
end

/-- `get_text(strip=True, separator='\n')`: strip every string, drop the
empty ones, join with the separator. -/
def nodeText (h : Html) : String :=
  String.intercalate "\n" (((textStrings h).map pyStrip).filter (fun s => s ≠ ""))

def forestText (f : HtmlForest) : String :=
  String.intercalate "\n" (((textStringsForest f).map pyStrip).filter (fun s => s ≠ ""))

/-- The CSS selector forms used by `content_selectors`. -/
inductive Selector where
  | tagSel (t : String)
  | attrSel (key val : String)
  | classSel (c : String)
  | idSel (i : String)
  deriving Repr, DecidableEq

def selMatches (sel : Selector) : Html → Bool
  | .txt _ => false
  | .el t i c a _ =>
      match sel with
      | .tagSel s => t == s
      | .attrSel k v => a.contains (k, v)
      | .classSel s => c.contains s
      | .idSel s => i == some s

mutual
/-- `soup.select_one(selector)`: first match in document pre-order. -/
def selectOneNode (sel : Selector) (h : Html) : Option Html :=
  if selMatches sel h then some h
  else
    match h with
    | .txt _ => none
    | .el _ _ _ _ ch => selectOneForest sel ch
def selectOneForest (sel : Selector) : HtmlForest → Option Html
  | .nil => none
  | .cons h rest =>
      match selectOneNode sel h with
      | some r => some r
      | none => selectOneForest sel rest
end

/-- `content_selectors = ['main', '[role="main"]', '.job-description',
'.job-details', '.position-summary', '.content', '#content',
'.post-content', 'article', '.job-posting', '.job-info']`. -/
def contentSelectors : List Selector :=
  [.tagSel "main", .attrSel "role" "main", .classSel "job-description",
   .classSel "job-details", .classSel "position-summary",
   .classSel "content", .idSel "content", .classSel "post-content",
   .tagSel "article", .classSel "job-posting", .classSel "job-info"]

/-- The selector loop of `_fetch_with_enhanced_bs4`: probe selectors in
order; a found element is returned (truncated to 8000) only when its text
is longer than 200 characters, otherwise the loop continues. -/
def probeSelectors : List Selector → HtmlForest → Option String
  | [], _ => none
  | sel :: rest, cleaned =>
      match selectOneForest sel cleaned with
      | some node =>
          if (nodeText node).length > 200 then some (pyTake (nodeText node) 8000)
          else probeSelectors rest cleaned
      | none => probeSelectors rest cleaned

/-- `RSSClient._fetch_with_jina`: returns `response.text[:8000]` on
status 200, `""` on any other status or exception. -/
def fetch_with_jina (jina : String → Option (Nat × String)) (url : String) : String :=
  match jina ("https://r.jina.ai/" ++ url) with
  | none => ""
  | some (status, text) => if status == 200 then pyTake text 8000 else ""

/-- The tag set decomposed by the structured strategy. -/
def stripAll : List String := ["script", "style", "nav", "header", "footer", "aside"]

/-- `RSSClient._fetch_with_enhanced_bs4`: strip the unwanted elements,
probe the selectors, and otherwise fall back to the stripped page's full
text truncated to 8000 — inside this strategy. -/
def fetch_with_enhanced_bs4 (fetchHtml : String → Option HtmlForest)
    (url : String) : String :=
  match fetchHtml url with
  | none => ""
  | some soup =>
      let cleaned := removeTagsForest stripAll soup
      match probeSelectors contentSelectors cleaned with
      | some result => result
      | none => pyTake (forestText cleaned) 8000

/-- `RSSClient._fetch_basic_content`: strip script/style only, full page
text truncated to 5000. -/
def fetch_basic_content (fetchHtml : String → Option HtmlForest)
    (url : String) : String :=
  match fetchHtml url with
  | none => ""
  | some soup =>
      pyTake (forestText (removeTagsForest ["script", "style"] soup)) 5000

/-- `RSSClient._fetch_full_content`: empty for a falsy URL, else the first
non-empty result of Jina, the enhanced structured strategy, and the basic
strategy. -/
def fetch_full_content (jina : String → Option (Nat × String))
    (fetchHtml : String → Option HtmlForest) (url : String) : String :=
  if url = "" then ""
  else
    let c1 := fetch_with_jina jina url
    if c1 ≠ "" then c1
    else
      let c2 := fetch_with_enhanced_bs4 fetchHtml url
      if c2 ≠ "" then c2
      else fetch_basic_content fetchHtml url

theorem pyTake_length_le (s : String) (n : Nat) : (pyTake s n).length ≤ n := by
  have h : (pyTake s n).length = (s.data.take n).length := rfl
  rw [h, List.length_take]
  omega

theorem pyTake_eq_empty {s : String} {n : Nat} (h : pyTake s n = "")
    (hn : n ≠ 0) : s = "" := by
  have hd : s.data.take n = ([] : List Char) := congrArg String.data h
  rcases List.take_eq_nil_iff.mp hd with h0 | h0
  · exact absurd h0 hn
  · cases s with
    | mk data =>
        simp only at h0
        subst h0
        rfl

theorem fetch_with_jina_length_le (jina : String → Option (Nat × String))
    (url : String) : (fetch_with_jina jina url).length ≤ 8000 := by
  unfold fetch_with_jina
  cases jina ("https://r.jina.ai/" ++ url) with
  | none => exact Nat.zero_le 8000
  | some p =>
      cases p with
      | mk status text =>
          show (if (status == 200) = true then pyTake text 8000 else "").length ≤ 8000
          by_cases hb : (status == 200) = true
          · rw [if_pos hb]
            exact pyTake_length_le text 8000
          · rw [if_neg hb]
            exact Nat.zero_le 8000

theorem probeSelectors_some_length (sels : List Selector) (cleaned : HtmlForest)
    (r : String) (h : probeSelectors sels cleaned = some r) : r.length ≤ 8000 := by
  induction sels with
  | nil => exact absurd h (by simp [probeSelectors])
  | cons sel rest ih =>
      unfold probeSelectors at h
      cases hs : selectOneForest sel cleaned with
      | none => rw [hs] at h; exact ih h
      | some node =>
          rw [hs] at h
          have h' : (if (nodeText node).length > 200 then
              some (pyTake (nodeText node) 8000)
              else probeSelectors rest cleaned) = some r := h
          by_cases hl : (nodeText node).length > 200
          · rw [if_pos hl] at h'
            cases h'
            exact pyTake_length_le _ 8000
          · rw [if_neg hl] at h'
            exact ih h'

theorem fetch_with_enhanced_bs4_length_le (fetchHtml : String → Option HtmlForest)
    (url : String) : (fetch_with_enhanced_bs4 fetchHtml url).length ≤ 8000 := by
  unfold fetch_with_enhanced_bs4
  cases hf : fetchHtml url with
  | none => exact Nat.zero_le 8000
  | some soup =>
      show (match probeSelectors contentSelectors (removeTagsForest stripAll soup) with
        | some result => result
        | none =>
            pyTake (forestText (removeTagsForest stripAll soup)) 8000).length ≤ 8000
      cases hp : probeSelectors contentSelectors (removeTagsForest stripAll soup) with
      | none => exact pyTake_length_le _ 8000
      | some r => exact probeSelectors_some_length _ _ _ hp

theorem fetch_basic_content_length_le (fetchHtml : String → Option HtmlForest)
    (url : String) : (fetch_basic_content fetchHtml url).length ≤ 5000 := by
  unfold fetch_basic_content
  cases fetchHtml url with
  | none => exact Nat.zero_le 5000
  | some soup => exact pyTake_length_le _ 5000

/-- C9 counterexample: a page whose nav text would survive a
script/style-only strip, with no selector match and a non-empty stripped
body.  The fetcher returns the structured strategy's internal body
fallback (nav stripped, 8000-char cap), not the claimed script/style-only
5000-char unstructured fallback, which would differ. -/
def cexPage : HtmlForest :=
  .cons (.el "nav" none [] [] (.cons (.txt "NAVNAV") .nil))
    (.cons (.el "div" none [] [] (.cons (.txt "short") .nil)) .nil)

theorem fetch_full_content_fallback_cex :
    fetch_with_jina (fun _ => none) "http://x" = "" ∧
    (probeSelectors contentSelectors (removeTagsForest stripAll cexPage)).isNone = true ∧
    fetch_full_content (fun _ => none) (fun _ => some cexPage) "http://x" = "short" ∧
    fetch_basic_content (fun _ => some cexPage) "http://x" = "NAVNAV\nshort" ∧
    ("short" : String) ≠ "NAVNAV\nshort" := by
  refine ⟨rfl, rfl, rfl, rfl, by decide⟩

/-- C9 amended: `_fetch_full_content` is total (never raises) with result
always at most 8000 characters; when Jina yields nothing and the
structured strategy also yields nothing, the result is the basic
script/style-only strategy (capped at 5000); but when Jina yields nothing,
no selector yields text longer than 200 characters, and the fully
stripped page text is non-empty, the result is that structured-strategy
body fallback truncated to 8000 characters (not the basic strategy). -/
theorem fetch_full_content_fallback_chain (jina : String → Option (Nat × String))
    (fetchHtml : String → Option HtmlForest) (url : String) :
    (fetch_full_content jina fetchHtml url).length ≤ 8000 ∧
    (fetch_basic_content fetchHtml url).length ≤ 5000 ∧
    (url ≠ "" → fetch_with_jina jina url = "" →
      fetch_with_enhanced_bs4 fetchHtml url = "" →
      fetch_full_content jina fetchHtml url = fetch_basic_content fetchHtml url) ∧
    (∀ soup, url ≠ "" → fetch_with_jina jina url = "" →
      fetchHtml url = some soup →
      probeSelectors contentSelectors (removeTagsForest stripAll soup) = none →
      forestText (removeTagsForest stripAll soup) ≠ "" →
      fetch_full_content jina fetchHtml url =
        pyTake (forestText (removeTagsForest stripAll soup)) 8000) := by
  refine ⟨?_, fetch_basic_content_length_le fetchHtml url, ?_, ?_⟩
  · by_cases hu : url = ""
    · unfold fetch_full_content
      rw [if_pos hu]
      exact Nat.zero_le 8000
    · unfold fetch_full_content
      rw [if_neg hu]
      show (if fetch_with_jina jina url ≠ "" then fetch_with_jina jina url
        else if fetch_with_enhanced_bs4 fetchHtml url ≠ "" then
          fetch_with_enhanced_bs4 fetchHtml url
        else fetch_basic_content fetchHtml url).length ≤ 8000
      by_cases h1 : fetch_with_jina jina url ≠ ""
      · rw [if_pos h1]
        exact fetch_with_jina_length_le jina url
      · rw [if_neg h1]
        by_cases h2 : fetch_with_enhanced_bs4 fetchHtml url ≠ ""
        · rw [if_pos h2]
          exact fetch_with_enhanced_bs4_length_le fetchHtml url
        · rw [if_neg h2]
          exact Nat.le_trans (fetch_basic_content_length_le fetchHtml url) (by omega)
  · intro hu h1 h2
    unfold fetch_full_content
    rw [if_neg hu]
    show (if fetch_with_jina jina url ≠ "" then fetch_with_jina jina url
      else if fetch_with_enhanced_bs4 fetchHtml url ≠ "" then
        fetch_with_enhanced_bs4 fetchHtml url
      else fetch_basic_content fetchHtml url) = fetch_basic_content fetchHtml url
    rw [h1, if_neg (by simp : ¬("" : String) ≠ ""), h2,
      if_neg (by simp : ¬("" : String) ≠ "")]
  · intro soup hu h1 hf hp hne
    have h2 : fetch_with_enhanced_bs4 fetchHtml url =
        pyTake (forestText (removeTagsForest stripAll soup)) 8000 := by
      unfold fetch_with_enhanced_bs4
      rw [hf]
      show (match probeSelectors contentSelectors (removeTagsForest stripAll soup) with
        | some result => result
        | none => pyTake (forestText (removeTagsForest stripAll soup)) 8000) =
        pyTake (forestText (removeTagsForest stripAll soup)) 8000
      rw [hp]
    have hptne : pyTake (forestText (removeTagsForest stripAll soup)) 8000 ≠ "" := by
      intro hc
      exact hne (pyTake_eq_empty hc (by omega))
    unfold fetch_full_content
    rw [if_neg hu]
    show (if fetch_with_jina jina url ≠ "" then fetch_with_jina jina url
      else if fetch_with_enhanced_bs4 fetchHtml url ≠ "" then
        fetch_with_enhanced_bs4 fetchHtml url
      else fetch_basic_content fetchHtml url) =
      pyTake (forestText (removeTagsForest stripAll soup)) 8000
    rw [h1, if_neg (by simp : ¬("" : String) ≠ ""), h2, if_pos hptne]

/-- C9 witness for the amended statement, at the counterexample page. -/
theorem fetch_full_content_fallback_chain_witness :
    fetch_full_content (fun _ => none) (fun _ => some cexPage) "http://x" =
      pyTake (forestText (removeTagsForest stripAll cexPage)) 8000 :=
  (fetch_full_content_fallback_chain (fun _ => none) (fun _ => some cexPage)
    "http://x").2.2.2 cexPage (by decide) rfl rfl rfl (by decide)

/-! ## Python string comparison

`entry_time > latest_timestamp` in `_fetch_miniflux` compares strings
lexicographically by code point.  `pyStrLt` is a structurally recursive
(and hence kernel-evaluable) rendering of that comparison; it agrees with
Mathlib's linear order on `String`. -/

def pyStrLtL : List Char → List Char → Bool
  | [], [] => false
  | [], _ :: _ => true
  | _ :: _, [] => false
  | a :: as, b :: bs =>
      if a < b then true else if b < a then false else pyStrLtL as bs

def pyStrLt (a b : String) : Bool := pyStrLtL a.data b.data

/-- `max` of two strings under the Python comparison. -/
def pyStrMax (a b : String) : String := if pyStrLt a b then b else a

theorem pyStrLtL_iff_lt (l₁ : List Char) : ∀ l₂ : List Char,
    pyStrLtL l₁ l₂ = true ↔ List.lt l₁ l₂ := by
  induction l₁ with
  | nil =>
      intro l₂
      cases l₂ with
      | nil => exact ⟨(fun h => nomatch h), (fun h => nomatch h)⟩
      | cons b bs => exact ⟨fun _ => List.lt.nil b bs, fun _ => rfl⟩
  | cons a as ih =>
      intro l₂
      cases l₂ with
      | nil => exact ⟨(fun h => nomatch h), (fun h => nomatch h)⟩
      | cons b bs =>
          unfold pyStrLtL
          by_cases hab : a < b
          · rw [if_pos hab]
            exact ⟨fun _ => List.lt.head as bs hab, fun _ => rfl⟩
          · rw [if_neg hab]
            by_cases hba : b < a
            · rw [if_pos hba]
              constructor
              · intro h; exact nomatch h
              · intro h
                cases h with
                | head _ _ h' => exact absurd h' hab
                | tail _ h₂ _ => exact absurd hba h₂
            · rw [if_neg hba]
              constructor
              · intro h; exact List.lt.tail hab hba ((ih bs).mp h)
              · intro h
                cases h with
                | head _ _ h' => exact absurd h' hab
                | tail _ _ h' => exact (ih bs).mpr h'

theorem pyStrLt_iff_lt (a b : String) : pyStrLt a b = true ↔ a < b := by
  rw [String.lt_iff_toList_lt]
  have h2 : (a.toList < b.toList) ↔ List.Lex (fun c d => c < d) a.toList b.toList :=
    Iff.rfl
  rw [h2, ← List.lt_iff_lex_lt]
  exact pyStrLtL_iff_lt a.data b.data

theorem pyStrLt_empty (t : String) (h : t ≠ "") : pyStrLt "" t = true := by
  cases t with
  | mk data =>
      cases data with
      | nil => exact absurd rfl h
      | cons c cs => rfl

theorem pyStrMax_empty_left (t : String) : pyStrMax "" t = t := by
  by_cases h : t = ""
  · rw [h]
    rfl
  · unfold pyStrMax
    rw [if_pos (pyStrLt_empty t h)]

theorem pyStrMax_eq_of_lt {a b : String} (h : pyStrLt a b = true) :
    pyStrMax a b = b := by
  unfold pyStrMax
  rw [if_pos h]

theorem pyStrMax_eq_of_not_lt {a b : String} (h : ¬pyStrLt a b = true) :
    pyStrMax a b = a := by
  unfold pyStrMax
  rw [if_neg h]

theorem le_pyStrMax_left (a b : String) : a ≤ pyStrMax a b := by
  by_cases h : pyStrLt a b = true
  · rw [pyStrMax_eq_of_lt h]
    exact le_of_lt ((pyStrLt_iff_lt a b).mp h)
  · rw [pyStrMax_eq_of_not_lt h]

theorem le_foldl_pyStrMax (ts : List String) : ∀ seed : String,
    seed ≤ ts.foldl pyStrMax seed := by
  induction ts with
  | nil => intro seed; exact le_refl seed
  | cons t ts ih =>
      intro seed
      exact le_trans (le_pyStrMax_left seed t) (ih (pyStrMax seed t))

/-! ## Miniflux provider (src/collector/rss_client.py, `_fetch_miniflux`)

A raw Miniflux API entry is the JSON dict the loop reads with
`entry.get(key, '')`: each field below is the value of that `get` (so an
absent key is the empty string — in particular the code reads the keys
`'link'` and `'description'`, which the Miniflux schema does not emit).
The HTTP request/JSON parse is an oracle `resp`; `none` models any
exception in the `try` block, for which the function returns `[]` and
leaves the watermark untouched. -/

structure MinifluxEntry where
  title : String
  url : String
  link : String
  description : String
  published_at : String
  content : String
  feed_title : String
  deriving Repr, DecidableEq

/-- `RSSClient._is_job_already_processed`. -/
def is_job_already_processed (db : List JobEntry) (title link : String) : Bool :=
  (findById db (generate_job_id title link)).isSome

/-- The dict appended to `entries` for a kept Miniflux entry.  It carries
no `relevance_score` key: the loop assigned the score to the *raw API
dict* (`entry['relevance_score'] = relevance_score`), which is discarded;
the dict built here omits it. -/
def minifluxEntryData (jina : String → Option (Nat × String))
    (fetchHtml : String → Option HtmlForest) (e : MinifluxEntry) : EntryData :=
  { title := e.title, link := e.url, description := e.content,
    published := e.published_at, source := e.feed_title,
    category := "general",
    content := fetch_full_content jina fetchHtml e.url,
    relevance_score := none }

/-- `if not latest_timestamp or entry_time > latest_timestamp:
latest_timestamp = entry_time`. -/
def bumpLatest (latest : Option String) (entry_time : String) : Option String :=
  if !pyTruthy latest || pyStrLt (latest.getD "") entry_time then some entry_time
  else latest

structure MinifluxLoopState where
  entries : List EntryData
  latest : Option String
  deriving Repr, DecidableEq

/-- One iteration of the `_fetch_miniflux` entry loop: skip
already-stored identities before anything else; then track the
timestamp; then gate on relevance (the score is checked against 6) and
append the built dict with fetched full content. -/
def minifluxStep (cfg : GateConfig) (db : List JobEntry)
    (llm : String → LLMOutcome) (jina : String → Option (Nat × String))
    (fetchHtml : String → Option HtmlForest)
    (st : MinifluxLoopState) (e : MinifluxEntry) : MinifluxLoopState :=
  if is_job_already_processed db e.title e.url then st
  else
    let latest' := bumpLatest st.latest e.published_at
    let verdict := quick_relevance_check cfg db llm e.title e.description (some e.link)
    if verdict.1 = false then { st with latest := latest' }
    else if verdict.2 < 6 then { st with latest := latest' }
    else { entries := st.entries ++ [minifluxEntryData jina fetchHtml e],
           latest := latest' }

/-- `RSSClient._fetch_miniflux`: returns the collected entry dicts and the
`last_miniflux_fetch` config value after the call (persisted only when
the tracked timestamp is truthy and changed). -/
def fetch_miniflux (cfg : GateConfig) (last_fetch : Option String)
    (db : List JobEntry) (llm : String → LLMOutcome)
    (jina : String → Option (Nat × String))
    (fetchHtml : String → Option HtmlForest)
    (resp : Option (List MinifluxEntry)) : List EntryData × Option String :=
  match resp with
  | none => ([], last_fetch)
  | some es =>
      let st := es.foldl (minifluxStep cfg db llm jina fetchHtml)
        { entries := [], latest := last_fetch }
      if pyTruthy st.latest ∧ st.latest ≠ last_fetch then (st.entries, st.latest)
      else (st.entries, last_fetch)

def noJina : String → Option (Nat × String) := fun _ => none

def noHtml : String → Option HtmlForest := fun _ => none

def llm8 : String → LLMOutcome := fun _ => .returns "8"

def mfEntry0 : MinifluxEntry :=
  { title := "T", url := "http://x", link := "", description := "",
    published_at := "2024-01-01", content := "JD", feed_title := "F" }

set_option maxRecDepth 400000 in
/-- C6: the relevance gate scores the fresh entry 8 (≥ 6), the entry is
kept, but the dict handed downstream has no relevance score, so the
record inserted by `add_job_entry` carries `relevance_score = 0`, not 8 —
the relevance cache is never populated on this path. -/
theorem miniflux_relevance_score_dropped :
    quick_relevance_check cfg0 [] llm8 mfEntry0.title mfEntry0.description
      (some mfEntry0.link) = (true, 8) ∧
    (fetch_miniflux cfg0 none [] llm8 noJina noHtml (some [mfEntry0])).1 =
      [minifluxEntryData noJina noHtml mfEntry0] ∧
    (minifluxEntryData noJina noHtml mfEntry0).relevance_score = none ∧
    (add_job_entry [] (minifluxEntryData noJina noHtml mfEntry0)).1 = true ∧
    (add_job_entry [] (minifluxEntryData noJina noHtml mfEntry0)).2.map
      (fun r => r.relevance_score) = [0] := by
  decide

def procRec : JobEntry :=
  { id := generate_job_id "T2" "http://y", title := "T2", link := "http://y",
    description := "", content := "", published := "2024-06-01", source := "",
    category := "", analyzed := false, analysis_result := none,
    relevance_score := 0 }

def mfEntry1 : MinifluxEntry :=
  { title := "T2", url := "http://y", link := "", description := "",
    published_at := "2024-06-01", content := "c", feed_title := "F" }

/-- Modelled from the claim's words (C7): the lexicographic maximum of
the previous watermark and the published timestamps of **all** entries
observed in the response. -/
def claimedWatermark (prev : Option String)
    (observed : List MinifluxEntry) : Option String :=
  match prev, observed with
  | none, [] => none
  | _, _ =>
      some ((observed.map (fun e => e.published_at)).foldl pyStrMax (prev.getD ""))

set_option maxRecDepth 400000 in
/-- C7 counterexample: the response's only entry is already stored, so the
loop `continue`s before the timestamp is tracked; the persisted watermark
stays at the previous value instead of advancing to the maximum observed
timestamp as claimed. -/
theorem miniflux_watermark_skips_processed_cex :
    is_job_already_processed [procRec] mfEntry1.title mfEntry1.url = true ∧
    (fetch_miniflux cfg0 (some "2024-01-01") [procRec] llm8 noJina noHtml
      (some [mfEntry1])).2 = some "2024-01-01" ∧
    claimedWatermark (some "2024-01-01") [mfEntry1] = some "2024-06-01" ∧
    some "2024-01-01" ≠ (some "2024-06-01" : Option String) := by
  decide

/-- The published timestamps of the response entries whose identity is not
already stored (the ones the loop does not skip). -/
def newTimestamps (db : List JobEntry) (es : List MinifluxEntry) : List String :=
  (es.filter (fun e => !is_job_already_processed db e.title e.url)).map
    (fun e => e.published_at)

theorem minifluxStep_latest (cfg : GateConfig) (db : List JobEntry)
    (llm : String → LLMOutcome) (jina : String → Option (Nat × String))
    (fetchHtml : String → Option HtmlForest)
    (st : MinifluxLoopState) (e : MinifluxEntry) :
    (minifluxStep cfg db llm jina fetchHtml st e).latest =
      if is_job_already_processed db e.title e.url then st.latest
      else bumpLatest st.latest e.published_at := by
  unfold minifluxStep
  by_cases h : is_job_already_processed db e.title e.url = true
  · rw [if_pos h, if_pos h]
  · rw [if_neg h, if_neg h]
    show (if (quick_relevance_check cfg db llm e.title e.description (some e.link)).1 = false
        then { st with latest := bumpLatest st.latest e.published_at }
        else if (quick_relevance_check cfg db llm e.title e.description (some e.link)).2 < 6
          then { st with latest := bumpLatest st.latest e.published_at }
        else { entries := st.entries ++ [minifluxEntryData jina fetchHtml e],
               latest := bumpLatest st.latest e.published_at } :
        MinifluxLoopState).latest = bumpLatest st.latest e.published_at
    split
    · rfl
    · split
      · rfl
      · rfl

theorem miniflux_fold_latest (cfg : GateConfig) (db : List JobEntry)
    (llm : String → LLMOutcome) (jina : String → Option (Nat × String))
    (fetchHtml : String → Option HtmlForest) (es : List MinifluxEntry) :
    ∀ st : MinifluxLoopState,
    (es.foldl (minifluxStep cfg db llm jina fetchHtml) st).latest =
      (newTimestamps db es).foldl bumpLatest st.latest := by
  induction es with
  | nil => intro st; rfl
  | cons e es ih =>
      intro st
      rw [List.foldl_cons, ih]
      by_cases h : is_job_already_processed db e.title e.url = true
      · have h1 : newTimestamps db (e :: es) = newTimestamps db es := by
          unfold newTimestamps
          rw [List.filter_cons, if_neg (by simp [h])]
        have h2 : (minifluxStep cfg db llm jina fetchHtml st e).latest = st.latest := by
          rw [minifluxStep_latest, if_pos h]
        rw [h1, h2]
      · have h1 : newTimestamps db (e :: es) =
            e.published_at :: newTimestamps db es := by
          unfold newTimestamps
          rw [List.filter_cons, if_pos (by simp [h])]
          rfl
        have h2 : (minifluxStep cfg db llm jina fetchHtml st e).latest =
            bumpLatest st.latest e.published_at := by
          rw [minifluxStep_latest, if_neg h]
        rw [h1, h2, List.foldl_cons]

theorem bumpLatest_eq_max (prev : Option String) (t : String) :
    bumpLatest prev t = some (pyStrMax (prev.getD "") t) := by
  cases prev with
  | none =>
      show some t = some (pyStrMax "" t)
      rw [pyStrMax_empty_left]
  | some p =>
      by_cases hp : p = ""
      · subst hp
        show some t = some (pyStrMax "" t)
        rw [pyStrMax_empty_left]
      · have htr : pyTruthy (some p) = true := by
          simp [pyTruthy, hp]
        show (if (!pyTruthy (some p) || pyStrLt p t) = true then some t else some p) =
          some (pyStrMax p t)
        rw [htr]
        simp only [Bool.not_true, Bool.false_or]
        by_cases hlt : pyStrLt p t = true
        · rw [if_pos hlt, pyStrMax_eq_of_lt hlt]
        · rw [if_neg hlt, pyStrMax_eq_of_not_lt hlt]

theorem foldl_bumpLatest_ne_nil (ts : List String) (hne : ts ≠ []) :
    ∀ prev : Option String,
    ts.foldl bumpLatest prev = some (ts.foldl pyStrMax (prev.getD "")) := by
  induction ts with
  | nil => exact absurd rfl hne
  | cons t ts ih =>
      intro prev
      rw [List.foldl_cons, List.foldl_cons, bumpLatest_eq_max]
      cases hts : ts with
      | nil => rfl
      | cons t2 ts2 =>
          subst hts
          rw [ih (by simp) (some (pyStrMax (prev.getD "") t))]
          rfl

/-- C7 amended: for a successful poll, the persisted watermark equals the
lexicographic maximum of the previous watermark and the published
timestamps of the response entries **whose identity is not already
stored** (already-stored entries are skipped before timestamp tracking),
when that maximum is a non-empty string, and is unchanged otherwise; it
never regresses; the equation is independent of the relevance oracle, so
rejected entries advance it like accepted ones. -/
theorem save_formula (last_fetch : Option String) (ts : List String) :
    (if pyTruthy (ts.foldl bumpLatest last_fetch) ∧
        ts.foldl bumpLatest last_fetch ≠ last_fetch then
      ts.foldl bumpLatest last_fetch
    else last_fetch) =
      (if ts.foldl pyStrMax (last_fetch.getD "") ≠ "" then
        some (ts.foldl pyStrMax (last_fetch.getD ""))
      else last_fetch) := by
  cases ts with
  | nil =>
      rw [if_neg (fun hc => hc.2 rfl)]
      cases last_fetch with
      | none => rw [if_neg (fun h => h rfl)]
      | some p =>
          by_cases hp : p = ""
          · subst hp
            rw [if_neg (fun h => h rfl)]
          · show some p = if p ≠ "" then some p else some p
            rw [if_pos hp]
  | cons t0 ts0 =>
      have hfold := foldl_bumpLatest_ne_nil (t0 :: ts0) (by simp) last_fetch
      simp only [List.foldl_cons] at hfold ⊢
      rw [hfold]
      by_cases hme : List.foldl pyStrMax (pyStrMax (last_fetch.getD "") t0) ts0 = ""
      · have hft : pyTruthy (some (List.foldl pyStrMax
            (pyStrMax (last_fetch.getD "") t0) ts0)) = false := by
          simp [pyTruthy, hme]
        rw [if_neg (fun hc => Bool.false_ne_true (hft ▸ hc.1)),
          if_neg (fun h => h hme)]
      · have htr : pyTruthy (some (List.foldl pyStrMax
            (pyStrMax (last_fetch.getD "") t0) ts0)) = true := by
          simp [pyTruthy, hme]
        by_cases heq : some (List.foldl pyStrMax
            (pyStrMax (last_fetch.getD "") t0) ts0) = last_fetch
        · rw [if_neg (fun hc => hc.2 heq), if_pos hme, heq]
        · rw [if_pos ⟨htr, heq⟩, if_pos hme]

/-- C7 amended: for a successful poll, the persisted watermark equals the
lexicographic maximum of the previous watermark and the published
timestamps of the response entries **whose identity is not already
stored** (already-stored entries are skipped before timestamp tracking),
when that maximum is a non-empty string, and is unchanged otherwise; it
never regresses; the equation is independent of the relevance oracle, so
rejected entries advance it like accepted ones. -/
theorem miniflux_watermark_formula (cfg : GateConfig) (db : List JobEntry)
    (llm : String → LLMOutcome) (jina : String → Option (Nat × String))
    (fetchHtml : String → Option HtmlForest) (last_fetch : Option String)
    (es : List MinifluxEntry) :
    (fetch_miniflux cfg last_fetch db llm jina fetchHtml (some es)).2 =
      (if (newTimestamps db es).foldl pyStrMax (last_fetch.getD "") ≠ "" then
        some ((newTimestamps db es).foldl pyStrMax (last_fetch.getD ""))
      else last_fetch) ∧
    last_fetch.getD "" ≤
      (fetch_miniflux cfg last_fetch db llm jina fetchHtml (some es)).2.getD "" := by
  have hlat : (es.foldl (minifluxStep cfg db llm jina fetchHtml)
      { entries := [], latest := last_fetch }).latest =
      (newTimestamps db es).foldl bumpLatest last_fetch :=
    miniflux_fold_latest cfg db llm jina fetchHtml es _
  have hsnd : (fetch_miniflux cfg last_fetch db llm jina fetchHtml (some es)).2 =
      (if pyTruthy ((newTimestamps db es).foldl bumpLatest last_fetch) ∧
          (newTimestamps db es).foldl bumpLatest last_fetch ≠ last_fetch then
        (newTimestamps db es).foldl bumpLatest last_fetch
      else last_fetch) := by
    show (if pyTruthy ((es.foldl (minifluxStep cfg db llm jina fetchHtml)
          { entries := [], latest := last_fetch }).latest) ∧
        (es.foldl (minifluxStep cfg db llm jina fetchHtml)
          { entries := [], latest := last_fetch }).latest ≠ last_fetch then
        ((es.foldl (minifluxStep cfg db llm jina fetchHtml)
          { entries := [], latest := last_fetch }).entries,
         (es.foldl (minifluxStep cfg db llm jina fetchHtml)
          { entries := [], latest := last_fetch }).latest)
      else ((es.foldl (minifluxStep cfg db llm jina fetchHtml)
          { entries := [], latest := last_fetch }).entries, last_fetch)).2 = _
    rw [hlat]
    by_cases hc : pyTruthy ((newTimestamps db es).foldl bumpLatest last_fetch) = true ∧
        (newTimestamps db es).foldl bumpLatest last_fetch ≠ last_fetch
    · rw [if_pos hc, if_pos hc]
    · rw [if_neg hc, if_neg hc]
  have hmain : (fetch_miniflux cfg last_fetch db llm jina fetchHtml (some es)).2 =
      (if (newTimestamps db es).foldl pyStrMax (last_fetch.getD "") ≠ "" then
        some ((newTimestamps db es).foldl pyStrMax (last_fetch.getD ""))
      else last_fetch) := by
    rw [hsnd, save_formula]
  refine ⟨hmain, ?_⟩
  rw [hmain]
  by_cases hme : (newTimestamps db es).foldl pyStrMax (last_fetch.getD "") ≠ ""
  · rw [if_pos hme]
    exact le_foldl_pyStrMax (newTimestamps db es) (last_fetch.getD "")
  · rw [if_neg hme]

end JobMonitor
